import Mathlib

/-!
Shallow embedding of `simulate_incident.py`: the deterministic incident
simulation engine (simulation state, event application, per-tick service
request evaluation, observer color computation with cache-induced lag,
automation step, and the tick driver), together with theorems checking the
natural-language specification against it.

Machine integers are modelled as `Nat` (the program only ever works with
non-negative tick counts and counters, and never overflows); Python's
`Optional` fields become `Option`, raised `ValueError`s become
`Except.error`, and Python strings become Lean `String`s.
-/

/-- Embeds the frozen `Params` dataclass. -/
structure Params where
  propagation_lag_ticks : Nat
  observer_cache_ttl_ticks : Nat
  automation_trigger_after_ticks : Nat
deriving Repr, DecidableEq

/-- Embeds the mutable `State` dataclass, with the Python defaults. -/
structure State where
  tick : Nat := 0
  role_attached_tick : Option Nat := none
  required_role : String := "unknown"
  service_account_deployed : Bool := false
  service_account_in_use : Bool := false
  service_account_revoked : Bool := false
  cached_red_until_tick : Option Nat := none
  consecutive_observed_red : Nat := 0
  operator_assumption_tick : Option Nat := none
  automation_action_tick : Option Nat := none
  total_requests : Nat := 0
  denied_requests : Nat := 0
  revoked_requests : Nat := 0
deriving Repr, DecidableEq

/-- The `State()` a run starts from. -/
def initialState : State := {}

/-- Embeds an incident event record: a `kind` string (the `event` key) and
the optional `details.role` field. -/
structure Event where
  kind : String
  role : Option String := none
deriving Repr, DecidableEq

/-- Embeds `_region_enforces_role`. -/
def _region_enforces_role (tick : Nat) (role_attached_tick : Option Nat)
    (lag : Nat) : Bool :=
  match role_attached_tick with
  | none => false
  | some attached => decide (tick ≥ attached + lag)

/-- The `for r in regions` loop body of `_service_request`: returns the
failure reason produced by the first region for which the role is not yet
enforced, if any. -/
def requestLoop (tick : Nat) (role_attached_tick : Option Nat) (lag : Nat) :
    List String → Option String
  | [] => none
  | r :: rest =>
    if _region_enforces_role tick role_attached_tick lag then
      requestLoop tick role_attached_tick lag rest
    else
      some ("PERMISSION_DENIED(" ++ r ++ ")")

/-- Embeds `_service_request`: one request per tick, returning the success
flag and the reason string. -/
def _service_request (state : State) (params : Params)
    (regions : List String) : Bool × String :=
  if !state.service_account_in_use then
    (false, "SERVICE_NOT_STARTED")
  else if state.service_account_revoked then
    (false, "SERVICE_ACCOUNT_REVOKED")
  else
    match requestLoop state.tick state.role_attached_tick
        params.propagation_lag_ticks regions with
    | some reason => (false, reason)
    | none => (true, "OK")

/-- Embeds `_observer_color`: returns the updated state (the cache field may
be rearmed) together with the reported color. -/
def _observer_color (state : State) (params : Params) (request_ok : Bool) :
    State × String :=
  if !request_ok then
    ({ state with
        cached_red_until_tick :=
          some (state.tick + params.observer_cache_ttl_ticks) }, "RED")
  else
    match state.cached_red_until_tick with
    | some c => if state.tick ≤ c then (state, "RED") else (state, "GREEN")
    | none => (state, "GREEN")

/-- The action string reported when the automation misfires. -/
def automationActionString : String :=
  "AUTOMATION_REVOKE_SERVICE_ACCOUNT (misclassified propagation lag as compromise/misconfig)"

/-- Embeds `_automation_step`: returns the updated state and the optional
decision string. -/
def _automation_step (state : State) (params : Params)
    (observed_color : String) : State × Option String :=
  let state :=
    if observed_color = "RED" then
      { state with consecutive_observed_red := state.consecutive_observed_red + 1 }
    else
      { state with consecutive_observed_red := 0 }
  if !state.service_account_revoked
      ∧ state.consecutive_observed_red ≥ params.automation_trigger_after_ticks then
    ({ state with
        service_account_revoked := true,
        automation_action_tick := some state.tick }, some automationActionString)
  else
    (state, none)

/-- Embeds `_apply_event`: mutates the state according to the event kind and
returns the action description, or raises (`Except.error`) on an
inconsistent or unknown event. -/
def _apply_event (state : State) (event : Event) :
    Except String (State × String) :=
  if event.kind = "deploy_service_account" then
    .ok ({ state with service_account_deployed := true },
         "deploy_service_account")
  else if event.kind = "attach_required_role" then
    let role := event.role.getD "unknown_role"
    .ok ({ state with
            role_attached_tick := some state.tick,
            required_role := role },
         "attach_required_role(" ++ role ++ ") control_plane_ack")
  else if event.kind = "service_starts_using_service_account" then
    if !state.service_account_deployed then
      .error "service started using SA before SA deployed"
    else
      .ok ({ state with service_account_in_use := true },
           "service_starts_using_service_account")
  else if event.kind = "operator_assumes_propagation_complete" then
    .ok ({ state with operator_assumption_tick := some state.tick },
         "operator_assumes_propagation_complete (control-plane view)")
  else
    .error ("Unknown event: " ++ event.kind)

/-- Applies the events scheduled for one tick in listed order, collecting the
action descriptions; the first raising event aborts. -/
def applyEvents (state : State) :
    List Event → Except String (State × List String)
  | [] => .ok (state, [])
  | e :: rest =>
    match _apply_event state e with
    | .error msg => .error msg
    | .ok (s', action) =>
      match applyEvents s' rest with
      | .error msg => .error msg
      | .ok (s'', actions) => .ok (s'', action :: actions)

/-- Embeds one metrics row as appended by `run` (the revocation flag is kept
as the Bool it serializes, the attachment tick as the Option it serializes). -/
structure Row where
  tick : Nat
  request_result : String
  observer : String
  consecutive_observed_red : Nat
  service_account_revoked : Bool
  role_attached_tick : Option Nat
deriving Repr, DecidableEq

/-- Embeds Python's substring test `pat in s` on the underlying character
lists: `beginsWith l pat` is true when `pat` occurs at the front of `l`. -/
def beginsWith : List Char → List Char → Bool
  | _, [] => true
  | [], _ :: _ => false
  | c :: cs, d :: ds => c == d && beginsWith cs ds

/-- `hasSub pat l` is true when `pat` occurs contiguously somewhere in `l`. -/
def hasSub (pat : List Char) : List Char → Bool
  | [] => beginsWith [] pat
  | c :: cs => beginsWith (c :: cs) pat || hasSub pat cs

/-- Python's `pat in s` substring containment on strings. -/
def strContains (s pat : String) : Bool :=
  hasSub pat.data s.data

/-- The counter updates done by `run` right after the request: always bump
`total_requests`, bump `denied_requests` when the reason contains
`PERMISSION_DENIED`, bump `revoked_requests` when the reason equals
`SERVICE_ACCOUNT_REVOKED`. -/
def countersUpdate (s1 : State) (reason : String) : State :=
  let s2 := { s1 with total_requests := s1.total_requests + 1 }
  let s3 :=
    if strContains reason "PERMISSION_DENIED" then
      { s2 with denied_requests := s2.denied_requests + 1 }
    else s2
  if reason = "SERVICE_ACCOUNT_REVOKED" then
    { s3 with revoked_requests := s3.revoked_requests + 1 }
  else s3

/-- The part of one loop iteration of `run` after the events have been
applied: request evaluation, counter updates, observer, automation, and the
metrics row plus timeline lines of the tick. -/
def stepPure (params : Params) (regions : List String) (t : Nat) (s1 : State)
    (actions : List String) : State × Row × List String :=
  let res := _service_request s1 params regions
  let s4 := countersUpdate s1 res.2
  let obsRes := _observer_color s4 params res.1
  let autoRes := _automation_step obsRes.1 params obsRes.2
  let s6 := autoRes.1
  let row : Row :=
    { tick := t
      request_result := res.2
      observer := obsRes.2
      consecutive_observed_red := s6.consecutive_observed_red
      service_account_revoked := s6.service_account_revoked
      role_attached_tick := s6.role_attached_tick }
  let lines :=
    actions.map (fun a => "T" ++ toString t ++ ": EVENT " ++ a)
      ++ ["T" ++ toString t ++ ": REQUEST " ++ res.2]
      ++ ["T" ++ toString t ++ ": OBSERVER " ++ obsRes.2
            ++ " consecutive_red=" ++ toString s6.consecutive_observed_red]
      ++ (match autoRes.2 with
          | some a => ["T" ++ toString t ++ ": DECISION WRONG " ++ a]
          | none => [])
  (s6, row, lines)

/-- One iteration of the `for t in range(0, max_tick + 1)` loop of `run`:
sets the tick, applies the scheduled events, then runs the pure part of the
tick. -/
def tickStep (params : Params) (regions : List String) (events : List Event)
    (t : Nat) (s0 : State) : Except String (State × Row × List String) :=
  match applyEvents { s0 with tick := t } events with
  | .error msg => .error msg
  | .ok (s1, actions) => .ok (stepPure params regions t s1 actions)

/-- The tick loop of `run`, driven by the number `n` of remaining ticks,
starting at tick `t` in state `s`; returns the final state, the metrics rows
and the timeline lines, or the error of the first raising event. -/
def runAux (params : Params) (regions : List String)
    (eventsAt : Nat → List Event) :
    Nat → Nat → State → Except String (State × List Row × List String)
  | _, 0, s => .ok (s, [], [])
  | t, n + 1, s =>
    match tickStep params regions (eventsAt t) t s with
    | .error msg => .error msg
    | .ok (s', row, lines) =>
      match runAux params regions eventsAt (t + 1) n s' with
      | .error msg => .error msg
      | .ok (sF, rows, allLines) => .ok (sF, row :: rows, lines ++ allLines)

/-- The grouping `events_by_tick` built by `run`: the events whose scheduled
tick is `t`, in the listed order. -/
def eventsByTick (events : List (Nat × Event)) (t : Nat) : List Event :=
  (events.filter (fun it => it.1 == t)).map (fun it => it.2)

/-- Embeds the core of `run`: from a parsed configuration (horizon,
parameters, region list, scheduled events) it iterates ticks `0` to
`max_tick` inclusive from the initial state. -/
def run (max_tick : Nat) (params : Params) (regions : List String)
    (events : List (Nat × Event)) :
    Except String (State × List Row × List String) :=
  runAux params regions (eventsByTick events) 0 (max_tick + 1) initialState

/-- The streak value after the first half of `_automation_step`. -/
def updatedStreak (s : State) (c : String) : Nat :=
  if c = "RED" then s.consecutive_observed_red + 1 else 0

/-- The request policy exactly as the specification words it (§4.2,
first-applicable-reason-wins): not-in-use wins, then revoked, then — when
the configured region list has a first region — the propagation check
(false if no role was ever attached), else success.  With an empty region
list rule 3 names no region and evaluation falls through to `OK`. -/
def serviceRequestSpec (state : State) (params : Params)
    (regions : List String) : Bool × String :=
  if state.service_account_in_use = false then
    (false, "SERVICE_NOT_STARTED")
  else if state.service_account_revoked = true then
    (false, "SERVICE_ACCOUNT_REVOKED")
  else
    match regions with
    | [] => (true, "OK")
    | r :: _ =>
      match state.role_attached_tick with
      | none => (false, "PERMISSION_DENIED(" ++ r ++ ")")
      | some attached =>
        if state.tick < attached + params.propagation_lag_ticks then
          (false, "PERMISSION_DENIED(" ++ r ++ ")")
        else
          (true, "OK")

/-! ## Concrete scenarios used by witnesses and counterexamples -/

/-- The end-to-end example scenario of the specification: deploy, attach the
role `X` and start the service all at tick 0. -/
def scenarioEvents : List (Nat × Event) :=
  [(0, { kind := "deploy_service_account" }),
   (0, { kind := "attach_required_role", role := some "X" }),
   (0, { kind := "service_starts_using_service_account" })]

/-- The example run: horizon 10, lag 3, TTL 2, trigger 2, one region. -/
def scenarioRun := run 10 ⟨3, 2, 2⟩ ["us-east"] scenarioEvents

def scenarioRows : List Row :=
  match scenarioRun with
  | .ok out => out.2.1
  | .error _ => []

def scenarioFinal : State :=
  match scenarioRun with
  | .ok out => out.1
  | .error _ => initialState

/-- The rows the example run actually produces. -/
def scenarioExpectedRows : List Row :=
  [⟨0, "PERMISSION_DENIED(us-east)", "RED", 1, false, some 0⟩,
   ⟨1, "PERMISSION_DENIED(us-east)", "RED", 2, true, some 0⟩] ++
  (List.range 9).map (fun i =>
    ⟨i + 2, "SERVICE_ACCOUNT_REVOKED", "RED", i + 3, true, some 0⟩)

/-- A recovery scenario: lag 1, TTL 2, trigger high enough never to fire;
the request fails only at tick 0 and succeeds from tick 1 on. -/
def cacheEvents : List (Nat × Event) :=
  [(0, { kind := "deploy_service_account" }),
   (0, { kind := "attach_required_role", role := some "X" }),
   (0, { kind := "service_starts_using_service_account" })]

def cacheRun := run 5 ⟨1, 2, 99⟩ ["r"] cacheEvents

def cacheRows : List Row :=
  match cacheRun with
  | .ok out => out.2.1
  | .error _ => []

def cacheFinal : State :=
  match cacheRun with
  | .ok out => out.1
  | .error _ => initialState

def cacheLines : List String :=
  match cacheRun with
  | .ok out => out.2.2
  | .error _ => []

/-- A run with two `attach_required_role` events at different ticks. -/
def attachEvents : List (Nat × Event) :=
  [(0, { kind := "attach_required_role", role := some "A" }),
   (1, { kind := "attach_required_role" })]

def attachRun := run 1 ⟨5, 5, 5⟩ [] attachEvents

def attachRows : List Row :=
  match attachRun with
  | .ok out => out.2.1
  | .error _ => []

def permStart : State :=
  { service_account_in_use := true, service_account_revoked := true }

def permRun := runAux ⟨0, 0, 5⟩ [] (fun _ => []) 0 2 permStart

def permFinal : State :=
  match permRun with
  | .ok out => out.1
  | .error _ => initialState

def permRows : List Row :=
  match permRun with
  | .ok out => out.2.1
  | .error _ => []

def permLines : List String :=
  match permRun with
  | .ok out => out.2.2
  | .error _ => []

/-- The state, metrics row and timeline of one concrete tick: no events, no
regions, a never-started service, unit parameters. -/
def c10State : State :=
  { tick := 0, cached_red_until_tick := some 1, consecutive_observed_red := 1,
    service_account_revoked := true, automation_action_tick := some 0,
    total_requests := 1 }

def c10Row : Row :=
  { tick := 0, request_result := "SERVICE_NOT_STARTED", observer := "RED",
    consecutive_observed_red := 1, service_account_revoked := true,
    role_attached_tick := none }

def c10Lines : List String :=
  ["T0: REQUEST SERVICE_NOT_STARTED",
   "T0: OBSERVER RED consecutive_red=1",
   "T0: DECISION WRONG " ++ automationActionString]

/-! ## Helper lemmas about the reason strings -/

theorem beginsWith_append (pat rest : List Char) :
    beginsWith (pat ++ rest) pat = true := by
  induction pat with
  | nil => cases rest <;> rfl
  | cons c cs ih => simp [beginsWith, ih]

theorem hasSub_of_beginsWith (pat l : List Char)
    (h : beginsWith l pat = true) : hasSub pat l = true := by
  cases l with
  | nil => simpa [hasSub] using h
  | cons c cs => simp [hasSub, h]

theorem pd_data (r : String) :
    ("PERMISSION_DENIED(" ++ r ++ ")").data
      = "PERMISSION_DENIED".data ++ ('(' :: (r.data ++ [')'])) := by
  rw [String.data_append, String.data_append]
  have h1 : "PERMISSION_DENIED(".data = "PERMISSION_DENIED".data ++ ['('] := rfl
  have h2 : ")".data = [')'] := rfl
  rw [h1, h2]
  simp

theorem strContains_pd (r : String) :
    strContains ("PERMISSION_DENIED(" ++ r ++ ")") "PERMISSION_DENIED" = true := by
  unfold strContains
  rw [pd_data]
  exact hasSub_of_beginsWith _ _ (beginsWith_append _ _)

theorem pd_head (r : String) :
    ("PERMISSION_DENIED(" ++ r ++ ")").data.head? = some 'P' := by
  rw [pd_data]
  have h1 : "PERMISSION_DENIED".data = 'P' :: "ERMISSION_DENIED".data := rfl
  rw [h1]
  rfl

theorem pd_ne (r lit : String) (hlit : lit.data.head? ≠ some 'P') :
    ("PERMISSION_DENIED(" ++ r ++ ")") ≠ lit :=
  fun h => hlit (h ▸ pd_head r)

theorem pd_ne_ok (r : String) :
    ("PERMISSION_DENIED(" ++ r ++ ")") ≠ "OK" :=
  pd_ne r _ (by decide)

theorem pd_ne_sns (r : String) :
    ("PERMISSION_DENIED(" ++ r ++ ")") ≠ "SERVICE_NOT_STARTED" :=
  pd_ne r _ (by decide)

theorem pd_ne_sar (r : String) :
    ("PERMISSION_DENIED(" ++ r ++ ")") ≠ "SERVICE_ACCOUNT_REVOKED" :=
  pd_ne r _ (by decide)

theorem strContains_sns :
    strContains "SERVICE_NOT_STARTED" "PERMISSION_DENIED" = false := by decide

theorem strContains_sar :
    strContains "SERVICE_ACCOUNT_REVOKED" "PERMISSION_DENIED" = false := by decide

theorem strContains_ok :
    strContains "OK" "PERMISSION_DENIED" = false := by decide

/-! ## Characterizing the request evaluation -/

theorem requestLoop_eq (tick : Nat) (rat : Option Nat) (lag : Nat)
    (l : List String) :
    requestLoop tick rat lag l =
      if _region_enforces_role tick rat lag then none
      else l.head?.map (fun r => "PERMISSION_DENIED(" ++ r ++ ")") := by
  induction l with
  | nil => simp [requestLoop]
  | cons r rest ih =>
    by_cases h : _region_enforces_role tick rat lag = true
    · simp [requestLoop, h, ih]
    · simp only [Bool.not_eq_true] at h
      simp [requestLoop, h]

theorem sr_not_in_use (s : State) (p : Params) (regions : List String)
    (h : s.service_account_in_use = false) :
    _service_request s p regions = (false, "SERVICE_NOT_STARTED") := by
  simp [_service_request, h]

theorem sr_revoked (s : State) (p : Params) (regions : List String)
    (huse : s.service_account_in_use = true)
    (hrev : s.service_account_revoked = true) :
    _service_request s p regions = (false, "SERVICE_ACCOUNT_REVOKED") := by
  simp [_service_request, huse, hrev]

theorem sr_live (s : State) (p : Params) (regions : List String)
    (huse : s.service_account_in_use = true)
    (hrev : s.service_account_revoked = false) :
    _service_request s p regions =
      if _region_enforces_role s.tick s.role_attached_tick
          p.propagation_lag_ticks then (true, "OK")
      else
        match regions.head? with
        | some r => (false, "PERMISSION_DENIED(" ++ r ++ ")")
        | none => (true, "OK") := by
  simp only [_service_request, huse, hrev, requestLoop_eq]
  by_cases h : _region_enforces_role s.tick s.role_attached_tick
      p.propagation_lag_ticks = true
  · simp [h]
  · simp only [Bool.not_eq_true] at h
    simp only [h, Bool.false_eq_true, if_false, ite_false]
    cases regions <;> simp

/-- Every outcome of `_service_request` is one of the four reason shapes. -/
theorem sr_cases (s : State) (p : Params) (regions : List String) :
    _service_request s p regions = (false, "SERVICE_NOT_STARTED") ∨
    _service_request s p regions = (false, "SERVICE_ACCOUNT_REVOKED") ∨
    _service_request s p regions = (true, "OK") ∨
    ∃ r, r ∈ regions ∧
      _service_request s p regions =
        (false, "PERMISSION_DENIED(" ++ r ++ ")") := by
  by_cases huse : s.service_account_in_use = true
  · by_cases hrev : s.service_account_revoked = true
    · exact Or.inr (Or.inl (sr_revoked s p regions huse hrev))
    · simp only [Bool.not_eq_true] at hrev
      have h := sr_live s p regions huse hrev
      by_cases henf : _region_enforces_role s.tick s.role_attached_tick
          p.propagation_lag_ticks = true
      · rw [henf] at h
        exact Or.inr (Or.inr (Or.inl (by simpa using h)))
      · simp only [Bool.not_eq_true] at henf
        rw [henf] at h
        cases hreg : regions with
        | nil =>
          rw [hreg] at h
          exact Or.inr (Or.inr (Or.inl (by simpa using h)))
        | cons r rest =>
          rw [hreg] at h
          refine Or.inr (Or.inr (Or.inr ⟨r, by simp [hreg], ?_⟩))
          simpa using h
  · simp only [Bool.not_eq_true] at huse
    exact Or.inl (sr_not_in_use s p regions huse)

/-- The request succeeds exactly when the reason is `OK`. -/
theorem sr_ok_iff (s : State) (p : Params) (regions : List String) :
    (_service_request s p regions).1 = true ↔
      (_service_request s p regions).2 = "OK" := by
  rcases sr_cases s p regions with h | h | h | ⟨r, _, h⟩ <;> rw [h]
  · simp
  · simp
  · simp
  · simpa using (pd_ne_ok r)

/-! ## What event application can and cannot change -/

/-- Fields of the state that no event kind ever modifies, plus the
monotonicity of `service_account_in_use`. -/
theorem applyEvent_preserves (s s' : State) (e : Event) (a : String)
    (h : _apply_event s e = .ok (s', a)) :
    s'.tick = s.tick ∧
    s'.service_account_revoked = s.service_account_revoked ∧
    s'.cached_red_until_tick = s.cached_red_until_tick ∧
    s'.consecutive_observed_red = s.consecutive_observed_red ∧
    s'.automation_action_tick = s.automation_action_tick ∧
    s'.total_requests = s.total_requests ∧
    s'.denied_requests = s.denied_requests ∧
    s'.revoked_requests = s.revoked_requests ∧
    (s.service_account_in_use = true → s'.service_account_in_use = true) := by
  unfold _apply_event at h
  split_ifs at h <;> simp_all <;> simp [← h]

theorem applyEvents_preserves (evs : List Event) :
    ∀ (s s' : State) (as : List String),
    applyEvents s evs = .ok (s', as) →
    s'.tick = s.tick ∧
    s'.service_account_revoked = s.service_account_revoked ∧
    s'.cached_red_until_tick = s.cached_red_until_tick ∧
    s'.consecutive_observed_red = s.consecutive_observed_red ∧
    s'.automation_action_tick = s.automation_action_tick ∧
    s'.total_requests = s.total_requests ∧
    s'.denied_requests = s.denied_requests ∧
    s'.revoked_requests = s.revoked_requests ∧
    (s.service_account_in_use = true → s'.service_account_in_use = true) := by
  induction evs with
  | nil =>
    intro s s' as h
    simp [applyEvents] at h
    simp [h.1.symm]
  | cons e rest ih =>
    intro s s' as h
    simp only [applyEvents] at h
    cases h1 : _apply_event s e with
    | error msg => simp only [h1] at h; simp at h
    | ok pr =>
      obtain ⟨s1, action⟩ := pr
      simp only [h1] at h
      cases h2 : applyEvents s1 rest with
      | error msg => simp only [h2] at h; simp at h
      | ok pr2 =>
        obtain ⟨s2, actions⟩ := pr2
        simp only [h2] at h
        simp only [Except.ok.injEq, Prod.mk.injEq] at h
        obtain ⟨hs, -⟩ := h
        subst hs
        have p1 := applyEvent_preserves s s1 e action h1
        have p2 := ih s1 s2 actions h2
        refine ⟨?_, ?_, ?_, ?_, ?_, ?_, ?_, ?_, ?_⟩ <;>
          simp_all

/-! ## Observer and automation case lemmas -/

theorem observer_fail (s : State) (p : Params) :
    _observer_color s p false =
      ({ s with
          cached_red_until_tick := some (s.tick + p.observer_cache_ttl_ticks) },
       "RED") := by
  simp [_observer_color]

theorem observer_ok_cached (s : State) (p : Params) (c : Nat)
    (hc : s.cached_red_until_tick = some c) (ht : s.tick ≤ c) :
    _observer_color s p true = (s, "RED") := by
  simp [_observer_color, hc, ht]

theorem observer_ok_expired (s : State) (p : Params) (c : Nat)
    (hc : s.cached_red_until_tick = some c) (ht : c < s.tick) :
    _observer_color s p true = (s, "GREEN") := by
  simp [_observer_color, hc, Nat.not_le.mpr ht]

theorem observer_ok_uncached (s : State) (p : Params)
    (hc : s.cached_red_until_tick = none) :
    _observer_color s p true = (s, "GREEN") := by
  simp [_observer_color, hc]

theorem automation_fires (s : State) (p : Params) (c : String)
    (hrev : s.service_account_revoked = false)
    (hN : p.automation_trigger_after_ticks ≤ updatedStreak s c) :
    _automation_step s p c =
      ({ s with
          consecutive_observed_red := updatedStreak s c,
          service_account_revoked := true,
          automation_action_tick := some s.tick },
       some automationActionString) := by
  unfold _automation_step updatedStreak at *
  by_cases h : c = "RED" <;> simp_all

theorem automation_below (s : State) (p : Params) (c : String)
    (hrev : s.service_account_revoked = false)
    (hN : updatedStreak s c < p.automation_trigger_after_ticks) :
    _automation_step s p c =
      ({ s with consecutive_observed_red := updatedStreak s c }, none) := by
  unfold _automation_step updatedStreak at *
  by_cases h : c = "RED"
  · simp_all [Nat.not_le.mpr hN]
  · simp_all
    omega

theorem automation_already_revoked (s : State) (p : Params) (c : String)
    (hrev : s.service_account_revoked = true) :
    _automation_step s p c =
      ({ s with consecutive_observed_red := updatedStreak s c }, none) := by
  unfold _automation_step updatedStreak
  by_cases h : c = "RED" <;> simp_all

/-! ## Structural lemmas about one tick -/

theorem tickStep_ok (p : Params) (regions : List String) (evs : List Event)
    (t : Nat) (s0 : State) (out : State × Row × List String)
    (h : tickStep p regions evs t s0 = .ok out) :
    ∃ s1 actions, applyEvents { s0 with tick := t } evs = .ok (s1, actions) ∧
      out = stepPure p regions t s1 actions := by
  unfold tickStep at h
  cases happ : applyEvents { s0 with tick := t } evs with
  | error msg => simp only [happ] at h; simp at h
  | ok pr =>
    obtain ⟨s1, actions⟩ := pr
    simp only [happ] at h
    simp only [Except.ok.injEq] at h
    exact ⟨s1, actions, rfl, h.symm⟩

theorem countersUpdate_preserves (s : State) (reason : String) :
    (countersUpdate s reason).tick = s.tick ∧
    (countersUpdate s reason).role_attached_tick = s.role_attached_tick ∧
    (countersUpdate s reason).service_account_deployed
      = s.service_account_deployed ∧
    (countersUpdate s reason).service_account_in_use
      = s.service_account_in_use ∧
    (countersUpdate s reason).service_account_revoked
      = s.service_account_revoked ∧
    (countersUpdate s reason).cached_red_until_tick
      = s.cached_red_until_tick ∧
    (countersUpdate s reason).consecutive_observed_red
      = s.consecutive_observed_red ∧
    (countersUpdate s reason).automation_action_tick
      = s.automation_action_tick := by
  unfold countersUpdate
  split_ifs <;> simp

theorem countersUpdate_total (s : State) (reason : String) :
    (countersUpdate s reason).total_requests = s.total_requests + 1 := by
  unfold countersUpdate
  split_ifs <;> simp

theorem countersUpdate_denied (s : State) (reason : String) :
    (countersUpdate s reason).denied_requests =
      if strContains reason "PERMISSION_DENIED" then s.denied_requests + 1
      else s.denied_requests := by
  unfold countersUpdate
  split_ifs <;> simp

theorem countersUpdate_revcount (s : State) (reason : String) :
    (countersUpdate s reason).revoked_requests =
      if reason = "SERVICE_ACCOUNT_REVOKED" then s.revoked_requests + 1
      else s.revoked_requests := by
  unfold countersUpdate
  split_ifs <;> simp

theorem observer_preserves (s : State) (p : Params) (ok : Bool) :
    (_observer_color s p ok).1.tick = s.tick ∧
    (_observer_color s p ok).1.role_attached_tick = s.role_attached_tick ∧
    (_observer_color s p ok).1.service_account_deployed
      = s.service_account_deployed ∧
    (_observer_color s p ok).1.service_account_in_use
      = s.service_account_in_use ∧
    (_observer_color s p ok).1.service_account_revoked
      = s.service_account_revoked ∧
    (_observer_color s p ok).1.consecutive_observed_red
      = s.consecutive_observed_red ∧
    (_observer_color s p ok).1.automation_action_tick
      = s.automation_action_tick ∧
    (_observer_color s p ok).1.total_requests = s.total_requests ∧
    (_observer_color s p ok).1.denied_requests = s.denied_requests ∧
    (_observer_color s p ok).1.revoked_requests = s.revoked_requests := by
  unfold _observer_color
  cases ok <;> simp
  cases hc : s.cached_red_until_tick <;> simp
  split_ifs <;> simp

theorem observer_cache_of_ok (s : State) (p : Params) :
    (_observer_color s p true).1.cached_red_until_tick
      = s.cached_red_until_tick := by
  unfold _observer_color
  cases hc : s.cached_red_until_tick with
  | none => simp [hc]
  | some c => by_cases ht : s.tick ≤ c <;> simp [hc, ht]

theorem automation_preserves (s : State) (p : Params) (c : String) :
    (_automation_step s p c).1.tick = s.tick ∧
    (_automation_step s p c).1.role_attached_tick = s.role_attached_tick ∧
    (_automation_step s p c).1.service_account_deployed
      = s.service_account_deployed ∧
    (_automation_step s p c).1.service_account_in_use
      = s.service_account_in_use ∧
    (_automation_step s p c).1.cached_red_until_tick
      = s.cached_red_until_tick ∧
    (_automation_step s p c).1.total_requests = s.total_requests ∧
    (_automation_step s p c).1.denied_requests = s.denied_requests ∧
    (_automation_step s p c).1.revoked_requests = s.revoked_requests := by
  by_cases hrev : s.service_account_revoked = true
  · rw [automation_already_revoked s p c hrev]
    simp
  · simp only [Bool.not_eq_true] at hrev
    by_cases hN : p.automation_trigger_after_ticks ≤ updatedStreak s c
    · rw [automation_fires s p c hrev hN]
      simp
    · rw [automation_below s p c hrev (Nat.not_le.mp hN)]
      simp

theorem stepPure_row (p : Params) (regions : List String) (t : Nat)
    (s1 : State) (actions : List String) :
    (stepPure p regions t s1 actions).2.1.tick = t ∧
    (stepPure p regions t s1 actions).2.1.request_result
      = (_service_request s1 p regions).2 ∧
    (stepPure p regions t s1 actions).2.1.service_account_revoked
      = (stepPure p regions t s1 actions).1.service_account_revoked ∧
    (stepPure p regions t s1 actions).2.1.consecutive_observed_red
      = (stepPure p regions t s1 actions).1.consecutive_observed_red ∧
    (stepPure p regions t s1 actions).2.1.role_attached_tick
      = (stepPure p regions t s1 actions).1.role_attached_tick :=
  ⟨rfl, rfl, rfl, rfl, rfl⟩

theorem stepPure_fields (p : Params) (regions : List String) (t : Nat)
    (s1 : State) (actions : List String) :
    (stepPure p regions t s1 actions).1.tick = s1.tick ∧
    (stepPure p regions t s1 actions).1.role_attached_tick
      = s1.role_attached_tick ∧
    (stepPure p regions t s1 actions).1.service_account_in_use
      = s1.service_account_in_use ∧
    (stepPure p regions t s1 actions).1.total_requests
      = s1.total_requests + 1 := by
  have hcu := countersUpdate_preserves s1 (_service_request s1 p regions).2
  have htot := countersUpdate_total s1 (_service_request s1 p regions).2
  have hob := observer_preserves
      (countersUpdate s1 (_service_request s1 p regions).2) p
      (_service_request s1 p regions).1
  have hau := automation_preserves
      (_observer_color (countersUpdate s1 (_service_request s1 p regions).2) p
        (_service_request s1 p regions).1).1 p
      (_observer_color (countersUpdate s1 (_service_request s1 p regions).2) p
        (_service_request s1 p regions).1).2
  exact ⟨hau.1.trans (hob.1.trans hcu.1),
    hau.2.1.trans (hob.2.1.trans hcu.2.1),
    hau.2.2.2.1.trans (hob.2.2.2.1.trans hcu.2.2.2.1),
    hau.2.2.2.2.2.1.trans (hob.2.2.2.2.2.2.2.1.trans htot)⟩

theorem stepPure_counters (p : Params) (regions : List String) (t : Nat)
    (s1 : State) (actions : List String) :
    (stepPure p regions t s1 actions).1.denied_requests =
      (if strContains (_service_request s1 p regions).2 "PERMISSION_DENIED"
        then s1.denied_requests + 1 else s1.denied_requests) ∧
    (stepPure p regions t s1 actions).1.revoked_requests =
      (if (_service_request s1 p regions).2 = "SERVICE_ACCOUNT_REVOKED"
        then s1.revoked_requests + 1 else s1.revoked_requests) := by
  have hden := countersUpdate_denied s1 (_service_request s1 p regions).2
  have hrc := countersUpdate_revcount s1 (_service_request s1 p regions).2
  have hob := observer_preserves
      (countersUpdate s1 (_service_request s1 p regions).2) p
      (_service_request s1 p regions).1
  have hau := automation_preserves
      (_observer_color (countersUpdate s1 (_service_request s1 p regions).2) p
        (_service_request s1 p regions).1).1 p
      (_observer_color (countersUpdate s1 (_service_request s1 p regions).2) p
        (_service_request s1 p regions).1).2
  exact ⟨hau.2.2.2.2.2.2.1.trans (hob.2.2.2.2.2.2.2.2.1.trans hden),
    hau.2.2.2.2.2.2.2.trans (hob.2.2.2.2.2.2.2.2.2.trans hrc)⟩

theorem stepPure_revoked_inuse (p : Params) (regions : List String) (t : Nat)
    (s1 : State) (actions : List String)
    (hrev : s1.service_account_revoked = true)
    (huse : s1.service_account_in_use = true) :
    (stepPure p regions t s1 actions).1.service_account_revoked = true ∧
    (stepPure p regions t s1 actions).2.1.request_result
      = "SERVICE_ACCOUNT_REVOKED" ∧
    (stepPure p regions t s1 actions).2.1.observer = "RED" ∧
    (stepPure p regions t s1 actions).1.revoked_requests
      = s1.revoked_requests + 1 ∧
    (stepPure p regions t s1 actions).1.automation_action_tick
      = s1.automation_action_tick := by
  have hreq := sr_revoked s1 p regions huse hrev
  have hcu := countersUpdate_preserves s1 "SERVICE_ACCOUNT_REVOKED"
  have hrc := countersUpdate_revcount s1 "SERVICE_ACCOUNT_REVOKED"
  have h4 : (countersUpdate s1 "SERVICE_ACCOUNT_REVOKED").service_account_revoked
      = true := hcu.2.2.2.2.1.trans hrev
  have h5 : (({ countersUpdate s1 "SERVICE_ACCOUNT_REVOKED" with
      cached_red_until_tick :=
        some ((countersUpdate s1 "SERVICE_ACCOUNT_REVOKED").tick
          + p.observer_cache_ttl_ticks) } : State)).service_account_revoked
      = true := h4
  simp only [stepPure, hreq, observer_fail,
    automation_already_revoked _ p "RED" h5, updatedStreak]
  simp [hcu.1, hcu.2.1, hcu.2.2.1, hcu.2.2.2.1, hcu.2.2.2.2.1,
    hcu.2.2.2.2.2.1, hcu.2.2.2.2.2.2.1, hcu.2.2.2.2.2.2.2, hrc, hrev]

theorem stepPure_revoked_notuse (p : Params) (regions : List String) (t : Nat)
    (s1 : State) (actions : List String)
    (hrev : s1.service_account_revoked = true)
    (huse : s1.service_account_in_use = false) :
    (stepPure p regions t s1 actions).1.service_account_revoked = true ∧
    (stepPure p regions t s1 actions).1.automation_action_tick
      = s1.automation_action_tick := by
  have hreq := sr_not_in_use s1 p regions huse
  have hcu := countersUpdate_preserves s1 "SERVICE_NOT_STARTED"
  have h4 : (countersUpdate s1 "SERVICE_NOT_STARTED").service_account_revoked
      = true := hcu.2.2.2.2.1.trans hrev
  have h5 : (({ countersUpdate s1 "SERVICE_NOT_STARTED" with
      cached_red_until_tick :=
        some ((countersUpdate s1 "SERVICE_NOT_STARTED").tick
          + p.observer_cache_ttl_ticks) } : State)).service_account_revoked
      = true := h4
  simp only [stepPure, hreq, observer_fail,
    automation_already_revoked _ p "RED" h5, updatedStreak]
  simp [hcu.2.2.2.2.1, hcu.2.2.2.2.2.2.2, hrev]

/-- From any state in which the account has already been revoked, the
automation step only updates the streak counter and never re-stamps. -/
theorem stepPure_revoked_any (p : Params) (regions : List String) (t : Nat)
    (s1 : State) (actions : List String)
    (hrev : s1.service_account_revoked = true) :
    (stepPure p regions t s1 actions).1.service_account_revoked = true ∧
    (stepPure p regions t s1 actions).1.automation_action_tick
      = s1.automation_action_tick := by
  cases huse : s1.service_account_in_use with
  | false =>
    exact stepPure_revoked_notuse p regions t s1 actions hrev huse
  | true =>
    have h := stepPure_revoked_inuse p regions t s1 actions hrev huse
    exact ⟨h.1, h.2.2.2.2⟩

theorem automation_notrevoked (s : State) (p : Params) (c : String)
    (hrev : s.service_account_revoked = false) :
    ((_automation_step s p c).1.service_account_revoked = true ↔
      p.automation_trigger_after_ticks
        ≤ (_automation_step s p c).1.consecutive_observed_red) ∧
    ((_automation_step s p c).1.service_account_revoked = true →
      (_automation_step s p c).1.automation_action_tick = some s.tick) ∧
    ((_automation_step s p c).1.service_account_revoked = false →
      (_automation_step s p c).1.automation_action_tick
        = s.automation_action_tick) := by
  by_cases hN : p.automation_trigger_after_ticks ≤ updatedStreak s c
  · rw [automation_fires s p c hrev hN]
    simp [hN]
  · rw [automation_below s p c hrev (Nat.not_le.mp hN)]
    simp [hrev, Nat.not_le.mp hN, Nat.not_le]

/-- From a not-yet-revoked state, one tick revokes exactly when the updated
streak reaches the trigger threshold, stamping the action tick with the
current tick; otherwise the action tick is untouched. -/
theorem stepPure_notrevoked (p : Params) (regions : List String) (t : Nat)
    (s1 : State) (actions : List String)
    (hrev : s1.service_account_revoked = false) :
    ((stepPure p regions t s1 actions).1.service_account_revoked = true ↔
      p.automation_trigger_after_ticks
        ≤ (stepPure p regions t s1 actions).1.consecutive_observed_red) ∧
    ((stepPure p regions t s1 actions).1.service_account_revoked = true →
      (stepPure p regions t s1 actions).1.automation_action_tick
        = some s1.tick) ∧
    ((stepPure p regions t s1 actions).1.service_account_revoked = false →
      (stepPure p regions t s1 actions).1.automation_action_tick
        = s1.automation_action_tick) := by
  have hcu := countersUpdate_preserves s1 (_service_request s1 p regions).2
  have hob := observer_preserves
      (countersUpdate s1 (_service_request s1 p regions).2) p
      (_service_request s1 p regions).1
  have h5rev :
      (_observer_color (countersUpdate s1 (_service_request s1 p regions).2) p
        (_service_request s1 p regions).1).1.service_account_revoked
      = false := hob.2.2.2.2.1.trans (hcu.2.2.2.2.1.trans hrev)
  have h5tick :
      (_observer_color (countersUpdate s1 (_service_request s1 p regions).2) p
        (_service_request s1 p regions).1).1.tick
      = s1.tick := hob.1.trans hcu.1
  have h5auto :
      (_observer_color (countersUpdate s1 (_service_request s1 p regions).2) p
        (_service_request s1 p regions).1).1.automation_action_tick
      = s1.automation_action_tick := hob.2.2.2.2.2.2.1.trans hcu.2.2.2.2.2.2.2
  have hau := automation_notrevoked
      (_observer_color (countersUpdate s1 (_service_request s1 p regions).2) p
        (_service_request s1 p regions).1).1 p
      (_observer_color (countersUpdate s1 (_service_request s1 p regions).2) p
        (_service_request s1 p regions).1).2 h5rev
  exact ⟨hau.1,
    fun h => (hau.2.1 h).trans (congrArg some h5tick),
    fun h => (hau.2.2 h).trans h5auto⟩

/-- When the reason of the tick is `OK` and a cache window is armed, the
observer reports `RED` exactly while the tick is inside the window and the
window itself is not modified. -/
theorem stepPure_ok_cache (p : Params) (regions : List String) (t : Nat)
    (s1 : State) (actions : List String) (c : Nat)
    (hc : s1.cached_red_until_tick = some c)
    (hok : (_service_request s1 p regions).2 = "OK") :
    (stepPure p regions t s1 actions).1.cached_red_until_tick = some c ∧
    (stepPure p regions t s1 actions).2.1.observer
      = (if s1.tick ≤ c then "RED" else "GREEN") := by
  have hreq : _service_request s1 p regions = (true, "OK") := by
    have h1 := (sr_ok_iff s1 p regions).mpr hok
    rcases hp : _service_request s1 p regions with ⟨b, r⟩
    rw [hp] at h1 hok
    simp only at h1 hok
    simp [h1, hok]
  have hcu := countersUpdate_preserves s1 "OK"
  have hc4 : (countersUpdate s1 "OK").cached_red_until_tick = some c :=
    hcu.2.2.2.2.2.1.trans hc
  have ht4 : (countersUpdate s1 "OK").tick = s1.tick := hcu.1
  by_cases ht : s1.tick ≤ c
  · have hobs := observer_ok_cached (countersUpdate s1 "OK") p c hc4
      (by rw [ht4]; exact ht)
    have hau := automation_preserves (countersUpdate s1 "OK") p "RED"
    simp only [stepPure, hreq, hobs]
    exact ⟨hau.2.2.2.2.1.trans hc4, by simp [ht]⟩
  · have hobs := observer_ok_expired (countersUpdate s1 "OK") p c hc4
      (by rw [ht4]; exact Nat.not_le.mp ht)
    have hau := automation_preserves (countersUpdate s1 "OK") p "GREEN"
    simp only [stepPure, hreq, hobs]
    exact ⟨hau.2.2.2.2.1.trans hc4, by simp [ht]⟩

/-- A failing request (any non-`OK` reason) makes the observer report `RED`
and re-arm the cache window to the current tick plus the TTL. -/
theorem stepPure_fail (p : Params) (regions : List String) (t : Nat)
    (s1 : State) (actions : List String)
    (hfail : (_service_request s1 p regions).2 ≠ "OK") :
    (stepPure p regions t s1 actions).1.cached_red_until_tick
      = some (s1.tick + p.observer_cache_ttl_ticks) ∧
    (stepPure p regions t s1 actions).2.1.observer = "RED" := by
  have hb : (_service_request s1 p regions).1 = false := by
    rcases hp : _service_request s1 p regions with ⟨b, r⟩
    cases b
    · rfl
    · exact absurd ((sr_ok_iff s1 p regions).mp (by rw [hp])) hfail
  have hcu := countersUpdate_preserves s1 (_service_request s1 p regions).2
  have hobs := observer_fail
      (countersUpdate s1 (_service_request s1 p regions).2) p
  have hau := automation_preserves
      ({ countersUpdate s1 (_service_request s1 p regions).2 with
          cached_red_until_tick :=
            some ((countersUpdate s1 (_service_request s1 p regions).2).tick
              + p.observer_cache_ttl_ticks) }) p "RED"
  constructor
  · show (_automation_step ((_observer_color
        (countersUpdate s1 (_service_request s1 p regions).2) p
        (_service_request s1 p regions).1).1) p
        ((_observer_color (countersUpdate s1 (_service_request s1 p regions).2)
          p (_service_request s1 p regions).1).2)).1.cached_red_until_tick = _
    rw [hb, hobs]
    exact hau.2.2.2.2.1.trans (by simp [hcu.1])
  · show (_observer_color (countersUpdate s1 (_service_request s1 p regions).2)
        p (_service_request s1 p regions).1).2 = "RED"
    rw [hb, hobs]

/-! ## Run-level lemmas -/

theorem runAux_length (p : Params) (regions : List String)
    (evAt : Nat → List Event) :
    ∀ (n t : Nat) (s sF : State) (rows : List Row) (lines : List String),
    runAux p regions evAt t n s = .ok (sF, rows, lines) →
    rows.length = n := by
  intro n
  induction n with
  | zero =>
    intro t s sF rows lines h
    simp only [runAux] at h
    obtain ⟨-, hrows, -⟩ : s = sF ∧ [] = rows ∧ [] = lines := by simpa using h
    simp [← hrows]
  | succ n ih =>
    intro t s sF rows lines h
    simp only [runAux] at h
    cases hts : tickStep p regions (evAt t) t s with
    | error msg => simp only [hts] at h; simp at h
    | ok out =>
      obtain ⟨s', row, lns⟩ := out
      simp only [hts] at h
      cases hrest : runAux p regions evAt (t + 1) n s' with
      | error msg => simp only [hrest] at h; simp at h
      | ok out2 =>
        obtain ⟨sF2, rows2, lines2⟩ := out2
        simp only [hrest] at h
        obtain ⟨-, hrows, -⟩ :
            sF2 = sF ∧ row :: rows2 = rows ∧ lns ++ lines2 = lines := by
          simpa using h
        rw [← hrows]
        simp [ih (t + 1) s' sF2 rows2 lines2 hrest]

/-- Revocation is absorbing for a whole run: in every run segment started in
a revoked state the state stays revoked, the automation action tick is never
re-stamped, and every produced row records the revoked flag. -/
theorem runAux_absorbing (p : Params) (regions : List String)
    (evAt : Nat → List Event) :
    ∀ (n t : Nat) (s sF : State) (rows : List Row) (lines : List String),
    s.service_account_revoked = true →
    runAux p regions evAt t n s = .ok (sF, rows, lines) →
    sF.service_account_revoked = true ∧
    sF.automation_action_tick = s.automation_action_tick ∧
    ∀ r ∈ rows, r.service_account_revoked = true := by
  intro n
  induction n with
  | zero =>
    intro t s sF rows lines hrev h
    simp only [runAux] at h
    obtain ⟨hs, hrows, -⟩ : s = sF ∧ [] = rows ∧ [] = lines := by simpa using h
    subst hs
    simp [← hrows, hrev]
  | succ n ih =>
    intro t s sF rows lines hrev h
    simp only [runAux] at h
    cases hts : tickStep p regions (evAt t) t s with
    | error msg => simp only [hts] at h; simp at h
    | ok out =>
      obtain ⟨s', row, lns⟩ := out
      simp only [hts] at h
      cases hrest : runAux p regions evAt (t + 1) n s' with
      | error msg => simp only [hrest] at h; simp at h
      | ok out2 =>
        obtain ⟨sF2, rows2, lines2⟩ := out2
        simp only [hrest] at h
        obtain ⟨hsF, hrows, -⟩ :
            sF2 = sF ∧ row :: rows2 = rows ∧ lns ++ lines2 = lines := by
          simpa using h
        obtain ⟨s1, actions, happ, hout⟩ :=
          tickStep_ok p regions (evAt t) t s _ hts
        have hps := applyEvents_preserves (evAt t) _ _ _ happ
        have h1rev : s1.service_account_revoked = true := by
          rw [hps.2.1]; simpa using hrev
        have hs' : s' = (stepPure p regions t s1 actions).1 :=
          congrArg Prod.fst hout
        have hrowval : row = (stepPure p regions t s1 actions).2.1 :=
          congrArg (fun x => x.2.1) hout
        have hstep := stepPure_revoked_any p regions t s1 actions h1rev
        have hrev' : s'.service_account_revoked = true := by
          rw [hs']; exact hstep.1
        have hauto' : s'.automation_action_tick = s.automation_action_tick := by
          rw [hs']
          rw [hstep.2, hps.2.2.2.2.1]
        have hrowrev : row.service_account_revoked = true := by
          rw [hrowval, (stepPure_row p regions t s1 actions).2.2.1, ← hs']
          exact hrev'
        obtain ⟨hF1, hF2, hF3⟩ := ih (t + 1) s' sF2 rows2 lines2 hrev' hrest
        subst hsF
        refine ⟨hF1, hF2.trans hauto', ?_⟩
        rw [← hrows]
        intro r hr
        rcases List.mem_cons.mp hr with hr0 | hr1
        · rw [hr0]; exact hrowrev
        · exact hF3 r hr1

/-- Once the run is in a revoked state with the service in use, every later
tick reports `SERVICE_ACCOUNT_REVOKED` and bumps `revoked_requests` by
exactly one per tick. -/
theorem runAux_revoked_permanence (p : Params) (regions : List String)
    (evAt : Nat → List Event) :
    ∀ (n t : Nat) (s sF : State) (rows : List Row) (lines : List String),
    s.service_account_revoked = true →
    s.service_account_in_use = true →
    runAux p regions evAt t n s = .ok (sF, rows, lines) →
    (∀ r ∈ rows, r.request_result = "SERVICE_ACCOUNT_REVOKED"
      ∧ r.observer = "RED") ∧
    sF.revoked_requests = s.revoked_requests + n := by
  intro n
  induction n with
  | zero =>
    intro t s sF rows lines hrev huse h
    simp only [runAux] at h
    obtain ⟨hs, hrows, -⟩ : s = sF ∧ [] = rows ∧ [] = lines := by simpa using h
    subst hs
    simp [← hrows]
  | succ n ih =>
    intro t s sF rows lines hrev huse h
    simp only [runAux] at h
    cases hts : tickStep p regions (evAt t) t s with
    | error msg => simp only [hts] at h; simp at h
    | ok out =>
      obtain ⟨s', row, lns⟩ := out
      simp only [hts] at h
      cases hrest : runAux p regions evAt (t + 1) n s' with
      | error msg => simp only [hrest] at h; simp at h
      | ok out2 =>
        obtain ⟨sF2, rows2, lines2⟩ := out2
        simp only [hrest] at h
        obtain ⟨hsF, hrows, -⟩ :
            sF2 = sF ∧ row :: rows2 = rows ∧ lns ++ lines2 = lines := by
          simpa using h
        obtain ⟨s1, actions, happ, hout⟩ :=
          tickStep_ok p regions (evAt t) t s _ hts
        have hps := applyEvents_preserves (evAt t) _ _ _ happ
        have h1rev : s1.service_account_revoked = true := by
          rw [hps.2.1]; simpa using hrev
        have h1use : s1.service_account_in_use = true := by
          apply hps.2.2.2.2.2.2.2.2
          simpa using huse
        have hs' : s' = (stepPure p regions t s1 actions).1 :=
          congrArg Prod.fst hout
        have hrowval : row = (stepPure p regions t s1 actions).2.1 :=
          congrArg (fun x => x.2.1) hout
        have hstep := stepPure_revoked_inuse p regions t s1 actions h1rev h1use
        have hfields := stepPure_fields p regions t s1 actions
        have hrev' : s'.service_account_revoked = true := by
          rw [hs']; exact hstep.1
        have huse' : s'.service_account_in_use = true := by
          rw [hs', hfields.2.2.1]; exact h1use
        have hrevcount : s'.revoked_requests = s.revoked_requests + 1 := by
          rw [hs', hstep.2.2.2.1, hps.2.2.2.2.2.2.2.1]
        obtain ⟨hF1, hF2⟩ := ih (t + 1) s' sF2 rows2 lines2 hrev' huse' hrest
        subst hsF
        constructor
        · rw [← hrows]
          intro r hr
          rcases List.mem_cons.mp hr with hr0 | hr1
          · rw [hr0, hrowval]
            exact ⟨hstep.2.1, hstep.2.2.1⟩
          · exact hF1 r hr1
        · rw [hF2, hrevcount]
          omega

/-- While a cache window `some c` is armed and every request of the segment
reports `OK`, the observer reports `RED` exactly on the ticks inside the
window and `GREEN` afterwards, and the window is never modified. -/
theorem runAux_cache (p : Params) (regions : List String)
    (evAt : Nat → List Event) :
    ∀ (n t : Nat) (s sF : State) (rows : List Row) (lines : List String)
      (c : Nat),
    s.cached_red_until_tick = some c →
    runAux p regions evAt t n s = .ok (sF, rows, lines) →
    (∀ i (hi : i < rows.length), rows[i].request_result = "OK") →
    ∀ i (hi : i < rows.length),
      rows[i].observer = (if t + i ≤ c then "RED" else "GREEN") := by
  intro n
  induction n with
  | zero =>
    intro t s sF rows lines c hc h hOK i hi
    simp only [runAux] at h
    obtain ⟨-, hrows, -⟩ : s = sF ∧ [] = rows ∧ [] = lines := by simpa using h
    rw [← hrows] at hi
    exact absurd hi (by simp)
  | succ n ih =>
    intro t s sF rows lines c hc h hOK i hi
    simp only [runAux] at h
    cases hts : tickStep p regions (evAt t) t s with
    | error msg => simp only [hts] at h; simp at h
    | ok out =>
      obtain ⟨s', row, lns⟩ := out
      simp only [hts] at h
      cases hrest : runAux p regions evAt (t + 1) n s' with
      | error msg => simp only [hrest] at h; simp at h
      | ok out2 =>
        obtain ⟨sF2, rows2, lines2⟩ := out2
        simp only [hrest] at h
        obtain ⟨hsF, hrows, -⟩ :
            sF2 = sF ∧ row :: rows2 = rows ∧ lns ++ lines2 = lines := by
          simpa using h
        subst hsF
        subst hrows
        obtain ⟨s1, actions, happ, hout⟩ :=
          tickStep_ok p regions (evAt t) t s _ hts
        have hps := applyEvents_preserves (evAt t) _ _ _ happ
        have h1c : s1.cached_red_until_tick = some c := by
          rw [hps.2.2.1]; simpa using hc
        have h1t : s1.tick = t := by rw [hps.1]
        have hs' : s' = (stepPure p regions t s1 actions).1 :=
          congrArg Prod.fst hout
        have hrowval : row = (stepPure p regions t s1 actions).2.1 :=
          congrArg (fun x => x.2.1) hout
        have hrOK : row.request_result = "OK" := by
          simpa using hOK 0 (by simp)
        have hsrOK : (_service_request s1 p regions).2 = "OK" := by
          rw [← (stepPure_row p regions t s1 actions).2.1, ← hrowval]
          exact hrOK
        have hstep := stepPure_ok_cache p regions t s1 actions c h1c hsrOK
        have hc' : s'.cached_red_until_tick = some c := by
          rw [hs']; exact hstep.1
        have hobs0 : row.observer = (if t ≤ c then "RED" else "GREEN") := by
          rw [hrowval, hstep.2, h1t]
        have hOK2 : ∀ i2 (hi2 : i2 < rows2.length),
            rows2[i2].request_result = "OK" := by
          intro i2 hi2
          have hbound : i2 + 1 < (row :: rows2).length := by
            simpa using Nat.succ_lt_succ hi2
          simpa using hOK (i2 + 1) hbound
        have IH := ih (t + 1) s' sF2 rows2 lines2 c hc' hrest hOK2
        cases i with
        | zero => simpa using hobs0
        | succ i2 =>
          have hi2 : i2 < rows2.length := by
            simpa [Nat.succ_lt_succ_iff] using hi
          have harith : t + (i2 + 1) = t + 1 + i2 := by omega
          simp only [List.getElem_cons_succ]
          rw [harith]
          exact IH i2 hi2

/-- Starting from a not-yet-revoked state, a row of the segment records the
revoked flag exactly when the consecutive-RED streak has reached the
automation threshold at that row or an earlier one. -/
theorem runAux_streak (p : Params) (regions : List String)
    (evAt : Nat → List Event) :
    ∀ (n t : Nat) (s sF : State) (rows : List Row) (lines : List String),
    s.service_account_revoked = false →
    runAux p regions evAt t n s = .ok (sF, rows, lines) →
    ∀ i (hi : i < rows.length),
      (rows[i].service_account_revoked = true ↔
        ∃ j, ∃ hj : j < rows.length, j ≤ i ∧
          p.automation_trigger_after_ticks
            ≤ rows[j].consecutive_observed_red) := by
  intro n
  induction n with
  | zero =>
    intro t s sF rows lines hrev h i hi
    simp only [runAux] at h
    obtain ⟨-, hrows, -⟩ : s = sF ∧ [] = rows ∧ [] = lines := by simpa using h
    rw [← hrows] at hi
    exact absurd hi (by simp)
  | succ n ih =>
    intro t s sF rows lines hrev h i hi
    simp only [runAux] at h
    cases hts : tickStep p regions (evAt t) t s with
    | error msg => simp only [hts] at h; simp at h
    | ok out =>
      obtain ⟨s', row, lns⟩ := out
      simp only [hts] at h
      cases hrest : runAux p regions evAt (t + 1) n s' with
      | error msg => simp only [hrest] at h; simp at h
      | ok out2 =>
        obtain ⟨sF2, rows2, lines2⟩ := out2
        simp only [hrest] at h
        obtain ⟨hsF, hrows, -⟩ :
            sF2 = sF ∧ row :: rows2 = rows ∧ lns ++ lines2 = lines := by
          simpa using h
        subst hsF
        subst hrows
        obtain ⟨s1, actions, happ, hout⟩ :=
          tickStep_ok p regions (evAt t) t s _ hts
        have hps := applyEvents_preserves (evAt t) _ _ _ happ
        have h1rev : s1.service_account_revoked = false := by
          rw [hps.2.1]; simpa using hrev
        have hs' : s' = (stepPure p regions t s1 actions).1 :=
          congrArg Prod.fst hout
        have hrowval : row = (stepPure p regions t s1 actions).2.1 :=
          congrArg (fun x => x.2.1) hout
        have hiff := (stepPure_notrevoked p regions t s1 actions h1rev).1
        have hrowrev : row.service_account_revoked
            = s'.service_account_revoked := by
          rw [hrowval, (stepPure_row p regions t s1 actions).2.2.1, ← hs']
        have hrowstreak : row.consecutive_observed_red
            = s'.consecutive_observed_red := by
          rw [hrowval, (stepPure_row p regions t s1 actions).2.2.2.1, ← hs']
        by_cases hrv : s'.service_account_revoked = true
        · have hsp : (stepPure p regions t s1 actions).1.service_account_revoked
              = true := by rw [← hs']; exact hrv
          have hN0 : p.automation_trigger_after_ticks
              ≤ row.consecutive_observed_red := by
            rw [hrowstreak, hs']
            exact hiff.mp hsp
          have habs := runAux_absorbing p regions evAt n (t + 1) s' sF2
            rows2 lines2 hrv hrest
          constructor
          · intro _hx
            exact ⟨0, by simp, Nat.zero_le i, by simpa using hN0⟩
          · intro _hx
            cases i with
            | zero => simpa using hrowrev.trans hrv
            | succ i2 =>
              have hi2 : i2 < rows2.length := by
                simpa [Nat.succ_lt_succ_iff] using hi
              simpa using habs.2.2 _ (rows2.getElem_mem hi2)
        · have hrv' : s'.service_account_revoked = false := by
            revert hrv; cases s'.service_account_revoked <;> simp
          have hNlt : ¬ p.automation_trigger_after_ticks
              ≤ row.consecutive_observed_red := by
            intro hcon
            have hsp : (stepPure p regions t s1 actions).1.service_account_revoked
                = true := by
              apply hiff.mpr
              rw [← hs', ← hrowstreak]
              exact hcon
            rw [← hs'] at hsp
            rw [hrv'] at hsp
            exact absurd hsp (by decide)
          have IH := ih (t + 1) s' sF2 rows2 lines2 hrv' hrest
          cases i with
          | zero =>
            constructor
            · intro h0
              have h0' : row.service_account_revoked = true := by simpa using h0
              rw [hrowrev, hrv'] at h0'
              exact absurd h0' (by decide)
            · rintro ⟨j, hj, hj0, hNle⟩
              have hj0' : j = 0 := Nat.le_zero.mp hj0
              subst hj0'
              exact absurd (by simpa using hNle) hNlt
          | succ i2 =>
            have hi2 : i2 < rows2.length := by
              simpa [Nat.succ_lt_succ_iff] using hi
            have IHi := IH i2 hi2
            simp only [List.getElem_cons_succ]
            constructor
            · intro hx
              obtain ⟨j2, hj2, hle2, hN2⟩ := IHi.mp hx
              exact ⟨j2 + 1, by simpa using Nat.succ_lt_succ hj2,
                Nat.succ_le_succ hle2, by simpa using hN2⟩
            · rintro ⟨j, hj, hle, hN2⟩
              cases j with
              | zero => exact absurd (by simpa using hN2) hNlt
              | succ j2 =>
                apply IHi.mpr
                refine ⟨j2, by simpa [Nat.succ_lt_succ_iff] using hj,
                  Nat.succ_le_succ_iff.mp hle, by simpa using hN2⟩

/-! ## The claims -/

/-- C3: for every state, parameter triple and region list, request
evaluation applies exactly the first-applicable-reason-wins order of the
specification: `SERVICE_NOT_STARTED` if the account is not in use, else
`SERVICE_ACCOUNT_REVOKED` if revoked, else `PERMISSION_DENIED` naming the
first configured region while propagation is incomplete (in particular when
no role was ever attached), else `OK`. -/
theorem C3_first_applicable_order (s : State) (p : Params)
    (regions : List String) :
    _service_request s p regions = serviceRequestSpec s p regions := by
  by_cases huse : s.service_account_in_use = true
  · by_cases hrev : s.service_account_revoked = true
    · rw [sr_revoked s p regions huse hrev]
      simp [serviceRequestSpec, huse, hrev]
    · have hrev' : s.service_account_revoked = false := by
        revert hrev; cases s.service_account_revoked <;> simp
      rw [sr_live s p regions huse hrev']
      unfold serviceRequestSpec
      rw [huse, hrev']
      simp only [Bool.true_eq_false, if_false, Bool.false_eq_true]
      cases regions with
      | nil =>
        cases henf : _region_enforces_role s.tick s.role_attached_tick
            p.propagation_lag_ticks <;> simp
      | cons r rest =>
        cases hrat : s.role_attached_tick with
        | none =>
          simp [_region_enforces_role, hrat]
        | some attached =>
          by_cases hlt : s.tick < attached + p.propagation_lag_ticks
          · have henf : _region_enforces_role s.tick (some attached)
                p.propagation_lag_ticks = false := by
              simp [_region_enforces_role]
              omega
            simp [hrat, henf, hlt]
          · have henf : _region_enforces_role s.tick (some attached)
                p.propagation_lag_ticks = true := by
              simp [_region_enforces_role]
              omega
            simp [hrat, henf, hlt]
  · have huse' : s.service_account_in_use = false := by
      revert huse; cases s.service_account_in_use <;> simp
    rw [sr_not_in_use s p regions huse']
    simp [serviceRequestSpec, huse']

/-- C5: the observer reports `RED` and arms the cache window whenever the
request failed; reports `RED` without touching the state when the request
succeeded inside an armed window; and reports `GREEN` otherwise. -/
theorem C5_observer_color (s : State) (p : Params) (request_ok : Bool) :
    (request_ok = false →
      _observer_color s p request_ok =
        ({ s with
            cached_red_until_tick :=
              some (s.tick + p.observer_cache_ttl_ticks) }, "RED")) ∧
    (∀ c, request_ok = true → s.cached_red_until_tick = some c →
      s.tick ≤ c → _observer_color s p request_ok = (s, "RED")) ∧
    (request_ok = true →
      (∀ c, s.cached_red_until_tick = some c → c < s.tick) →
      _observer_color s p request_ok = (s, "GREEN")) := by
  refine ⟨?_, ?_, ?_⟩
  · rintro rfl
    exact observer_fail s p
  · rintro c rfl hc ht
    exact observer_ok_cached s p c hc ht
  · rintro rfl hall
    cases hc : s.cached_red_until_tick with
    | none => exact observer_ok_uncached s p hc
    | some c => exact observer_ok_expired s p c hc (hall c hc)

/-- Witness for C5 at a concrete state: a failure arms the window, a success
inside the window still reports `RED` without modifying the state. -/
theorem C5_observer_color_witness :
    _observer_color { tick := 3, cached_red_until_tick := some 5 } ⟨0, 7, 1⟩
      false = ({ tick := 3, cached_red_until_tick := some 10 }, "RED") ∧
    _observer_color { tick := 3, cached_red_until_tick := some 5 } ⟨0, 7, 1⟩
      true = ({ tick := 3, cached_red_until_tick := some 5 }, "RED") :=
  ⟨(C5_observer_color _ _ false).1 rfl,
   (C5_observer_color _ _ true).2.1 5 rfl rfl (by decide)⟩

/-- C9: with an empty configured region list, a request from an in-use,
non-revoked account succeeds with `OK` at every tick, regardless of whether
a role was ever attached and of the propagation lag. -/
theorem C9_empty_regions_ok (s : State) (p : Params)
    (huse : s.service_account_in_use = true)
    (hrev : s.service_account_revoked = false) :
    _service_request s p [] = (true, "OK") := by
  rw [sr_live s p [] huse hrev]
  cases henf : _region_enforces_role s.tick s.role_attached_tick
      p.propagation_lag_ticks <;> simp

/-- Witness for C9: an in-use account with no role ever attached and a
positive lag still gets `OK` when the region list is empty. -/
theorem C9_empty_regions_ok_witness :
    _service_request { service_account_in_use := true } ⟨5, 0, 1⟩ []
      = (true, "OK") :=
  C9_empty_regions_ok { service_account_in_use := true } ⟨5, 0, 1⟩ rfl rfl

/-- C7: event application raises exactly in two cases — a service-start
event while the account is not deployed, and a kind outside the four-kind
vocabulary; every other event mutates the state per its kind and returns
its action description without raising. -/
theorem C7_event_application (s : State) (e : Event) :
    ((∃ msg, _apply_event s e = .error msg) ↔
      (e.kind = "service_starts_using_service_account" ∧
        s.service_account_deployed = false) ∨
      (e.kind ≠ "deploy_service_account" ∧
       e.kind ≠ "attach_required_role" ∧
       e.kind ≠ "service_starts_using_service_account" ∧
       e.kind ≠ "operator_assumes_propagation_complete")) ∧
    (e.kind = "deploy_service_account" →
      _apply_event s e = .ok ({ s with service_account_deployed := true },
        "deploy_service_account")) ∧
    (e.kind = "attach_required_role" →
      _apply_event s e = .ok ({ s with
          role_attached_tick := some s.tick,
          required_role := e.role.getD "unknown_role" },
        "attach_required_role(" ++ e.role.getD "unknown_role"
          ++ ") control_plane_ack")) ∧
    (e.kind = "service_starts_using_service_account" →
      s.service_account_deployed = true →
      _apply_event s e = .ok ({ s with service_account_in_use := true },
        "service_starts_using_service_account")) ∧
    (e.kind = "operator_assumes_propagation_complete" →
      _apply_event s e =
        .ok ({ s with operator_assumption_tick := some s.tick },
          "operator_assumes_propagation_complete (control-plane view)")) := by
  unfold _apply_event
  split_ifs with h1 h2 h3 h4 h5 <;>
    refine ⟨?_, ?_, ?_, ?_, ?_⟩ <;> simp_all

/-- Witness for C7: a deploy event succeeds and mutates only the deployment
flag; a service-start on a never-deployed account raises. -/
theorem C7_event_application_witness :
    _apply_event initialState { kind := "deploy_service_account" }
      = .ok ({ initialState with service_account_deployed := true },
        "deploy_service_account") ∧
    (∃ msg, _apply_event initialState
      { kind := "service_starts_using_service_account" } = .error msg) :=
  ⟨(C7_event_application initialState
      { kind := "deploy_service_account" }).2.1 rfl,
   (C7_event_application initialState
      { kind := "service_starts_using_service_account" }).1.mpr
     (Or.inl ⟨rfl, rfl⟩)⟩

/-- C8 (amended): `role_attached_tick`, once set, is never cleared by a
later event, and the only event kind that can change it is a later
`attach_required_role`, which overwrites it with that event's tick. -/
theorem C8_role_attachment_amended (s s' : State) (e : Event) (a : String)
    (h : _apply_event s e = .ok (s', a)) :
    (∀ v, s.role_attached_tick = some v →
      s'.role_attached_tick = some v ∨
        (e.kind = "attach_required_role" ∧
          s'.role_attached_tick = some s.tick)) ∧
    (e.kind ≠ "attach_required_role" →
      s'.role_attached_tick = s.role_attached_tick) := by
  unfold _apply_event at h
  split_ifs at h with h1 h2 h3 h4 h5
  · obtain ⟨hs', -⟩ : _ = s' ∧ _ = a := by simpa using h
    subst hs'
    exact ⟨fun v hv => Or.inl hv, fun _ => rfl⟩
  · obtain ⟨hs', -⟩ : _ = s' ∧ _ = a := by simpa using h
    subst hs'
    exact ⟨fun v hv => Or.inr ⟨h2, rfl⟩, fun hne => absurd h2 hne⟩
  · obtain ⟨hs', -⟩ : _ = s' ∧ _ = a := by simpa using h
    subst hs'
    exact ⟨fun v hv => Or.inl hv, fun _ => rfl⟩
  · obtain ⟨hs', -⟩ : _ = s' ∧ _ = a := by simpa using h
    subst hs'
    exact ⟨fun v hv => Or.inl hv, fun _ => rfl⟩

/-- Witness for C8's amended statement: a non-attach event leaves an
already-set attachment tick unchanged. -/
theorem C8_role_attachment_amended_witness :
    ({ role_attached_tick := some 4, service_account_deployed := true }
        : State).role_attached_tick = some 4 ∨
      (({ kind := "deploy_service_account" } : Event).kind
          = "attach_required_role" ∧
        ({ role_attached_tick := some 4, service_account_deployed := true }
            : State).role_attached_tick
          = some (({ role_attached_tick := some 4, service_account_deployed := true } : State)).tick) :=
  (C8_role_attachment_amended
    { role_attached_tick := some 4, service_account_deployed := true }
    { role_attached_tick := some 4, service_account_deployed := true }
    { kind := "deploy_service_account" } "deploy_service_account" rfl).1 4 rfl

/-- Counterexample to C8 as stated: in a run with an attach event at tick 0
and another at tick 1, the attachment tick recorded in the metrics changes
from `some 0` to `some 1` — a later event does change it. -/
theorem C8_counterexample :
    attachRows.map Row.role_attached_tick = [some 0, some 1] ∧
    (some 1 : Option Nat) ≠ some 0 := by decide

/-- C4: the automation revokes exactly at a tick where the updated
consecutive-RED streak reaches the trigger threshold while the account is
not yet revoked (stamping `automation_action_tick` with the current tick),
never below the threshold; once revoked, the step only updates the streak
counter, the action tick is never re-stamped for the rest of the run, and a
metrics row records the revoked flag exactly when the streak reached the
threshold at that row or an earlier one. -/
theorem C4_automation_threshold (p : Params) :
    (∀ (s : State) (c : String),
      s.service_account_revoked = false →
      p.automation_trigger_after_ticks ≤ updatedStreak s c →
      _automation_step s p c =
        ({ s with
            consecutive_observed_red := updatedStreak s c,
            service_account_revoked := true,
            automation_action_tick := some s.tick },
         some automationActionString)) ∧
    (∀ (s : State) (c : String),
      s.service_account_revoked = false →
      updatedStreak s c < p.automation_trigger_after_ticks →
      _automation_step s p c =
        ({ s with consecutive_observed_red := updatedStreak s c }, none)) ∧
    (∀ (s : State) (c : String),
      s.service_account_revoked = true →
      _automation_step s p c =
        ({ s with consecutive_observed_red := updatedStreak s c }, none)) ∧
    (∀ (regions : List String) (evAt : Nat → List Event) (n t : Nat)
        (s sF : State) (rows : List Row) (lines : List String),
      s.service_account_revoked = true →
      runAux p regions evAt t n s = .ok (sF, rows, lines) →
      sF.automation_action_tick = s.automation_action_tick) ∧
    (∀ (regions : List String) (evAt : Nat → List Event) (n t : Nat)
        (s sF : State) (rows : List Row) (lines : List String),
      s.service_account_revoked = false →
      runAux p regions evAt t n s = .ok (sF, rows, lines) →
      ∀ i (hi : i < rows.length),
        (rows[i].service_account_revoked = true ↔
          ∃ j, ∃ hj : j < rows.length, j ≤ i ∧
            p.automation_trigger_after_ticks
              ≤ rows[j].consecutive_observed_red)) :=
  ⟨fun s c => automation_fires s p c,
   fun s c => automation_below s p c,
   fun s c h => automation_already_revoked s p c h,
   fun regions evAt n t s sF rows lines hrev h =>
     (runAux_absorbing p regions evAt n t s sF rows lines hrev h).2.1,
   fun regions evAt n t s sF rows lines hrev h =>
     runAux_streak p regions evAt n t s sF rows lines hrev h⟩

/-- Witness for C4: with threshold 2 the step fires when the streak reaches
2, and an already-revoked state is only streak-updated. -/
theorem C4_automation_threshold_witness :
    _automation_step { tick := 4, consecutive_observed_red := 1 } ⟨0, 0, 2⟩
      "RED" =
      ({ tick := 4, consecutive_observed_red := 2,
         service_account_revoked := true,
         automation_action_tick := some 4 }, some automationActionString) ∧
    _automation_step { tick := 4, service_account_revoked := true,
                       consecutive_observed_red := 7 } ⟨0, 0, 2⟩ "GREEN" =
      ({ tick := 4, service_account_revoked := true,
         consecutive_observed_red := 0 }, none) :=
  ⟨(C4_automation_threshold ⟨0, 0, 2⟩).1
      { tick := 4, consecutive_observed_red := 1 } "RED" rfl (by decide),
   (C4_automation_threshold ⟨0, 0, 2⟩).2.2.1
      { tick := 4, service_account_revoked := true,
        consecutive_observed_red := 7 }
      "GREEN" rfl⟩

/-- C1 (amended): from any point of a run at which the account is revoked
and in use at the start of a tick — that is, from the tick after
`automation_action_tick` onwards — every remaining tick reports
`SERVICE_ACCOUNT_REVOKED` with a `RED` observation and `revoked_requests`
grows by exactly one per tick. -/
theorem C1_revocation_permanence (p : Params) (regions : List String)
    (evAt : Nat → List Event) (n t : Nat) (s sF : State) (rows : List Row)
    (lines : List String)
    (hrev : s.service_account_revoked = true)
    (huse : s.service_account_in_use = true)
    (h : runAux p regions evAt t n s = .ok (sF, rows, lines)) :
    (∀ r ∈ rows, r.request_result = "SERVICE_ACCOUNT_REVOKED"
      ∧ r.observer = "RED") ∧
    sF.revoked_requests = s.revoked_requests + n :=
  runAux_revoked_permanence p regions evAt n t s sF rows lines hrev huse h

/-- Witness for C1's amended statement on a concrete two-tick run. -/
theorem C1_revocation_permanence_witness :
    permFinal.revoked_requests = permStart.revoked_requests + 2 :=
  (C1_revocation_permanence ⟨0, 0, 5⟩ [] (fun _ => []) 2 0 permStart
    permFinal permRows permLines rfl rfl rfl).2

set_option maxRecDepth 4000 in
/-- Counterexample to C1 as stated: in the specification's own example run
the revoked flag becomes true during tick 1 (`automation_action_tick = 1`),
yet the request evaluated at tick 1 reports `PERMISSION_DENIED(us-east)`,
not `SERVICE_ACCOUNT_REVOKED`. -/
theorem C1_counterexample :
    scenarioFinal.automation_action_tick = some 1 ∧
    (scenarioRows.map Row.service_account_revoked).get? 0 = some false ∧
    (scenarioRows.map Row.service_account_revoked).get? 1 = some true ∧
    (scenarioRows.map Row.request_result).get? 1
      = some "PERMISSION_DENIED(us-east)" ∧
    (scenarioRows.map Row.request_result).get? 1
      ≠ some "SERVICE_ACCOUNT_REVOKED" := by decide

set_option maxRecDepth 4000 in
/-- Counterexample to C2 as stated: in the example configuration the
request at tick 2 reports `SERVICE_ACCOUNT_REVOKED`, not
`PERMISSION_DENIED(us-east)`, and the automation revokes at tick 1, not
tick 2. -/
theorem C2_counterexample :
    (scenarioRows.map Row.request_result).get? 2
      = some "SERVICE_ACCOUNT_REVOKED" ∧
    (scenarioRows.map Row.request_result).get? 2
      ≠ some "PERMISSION_DENIED(us-east)" ∧
    scenarioFinal.automation_action_tick = some 1 ∧
    scenarioFinal.automation_action_tick ≠ some 2 := by decide

set_option maxRecDepth 4000 in
/-- C2 (amended): in the example run, ticks 0 and 1 report
`PERMISSION_DENIED(us-east)` with observer `RED`; the RED streak reaches 2
at tick 1 and the automation revokes the account at tick 1; every tick ≥ 2
reports `SERVICE_ACCOUNT_REVOKED` and `RED` even though propagation would
have completed at tick 3. -/
theorem C2_amended_scenario :
    scenarioRows = scenarioExpectedRows ∧
    scenarioFinal.automation_action_tick = some 1 ∧
    scenarioFinal.total_requests = 11 ∧
    scenarioFinal.denied_requests = 2 ∧
    scenarioFinal.revoked_requests = 9 := by decide

/-- C6 (amended): if the request fails at tick T — so the observer reports
`RED` and arms the cache to T plus the TTL — and the request succeeds at
every later tick of the run, the observer still reports `RED` at every tick
up to T + TTL and `GREEN` from T + TTL + 1 onwards. -/
theorem C6_cache_masks_recovery (p : Params) (regions : List String)
    (evAt : Nat → List Event) (n T : Nat) (s sF : State) (rows : List Row)
    (lines : List String)
    (h : runAux p regions evAt T n s = .ok (sF, rows, lines))
    (hfail : (rows[0]?).map Row.request_result ≠ some "OK")
    (hOK : ∀ i (hi : i < rows.length), 1 ≤ i →
      rows[i].request_result = "OK") :
    ∀ i (hi : i < rows.length),
      rows[i].observer =
        (if i ≤ p.observer_cache_ttl_ticks then "RED" else "GREEN") := by
  cases n with
  | zero =>
    intro i hi
    have hlen := runAux_length p regions evAt 0 T s sF rows lines h
    rw [hlen] at hi
    exact absurd hi (by simp)
  | succ n =>
    simp only [runAux] at h
    cases hts : tickStep p regions (evAt T) T s with
    | error msg => simp only [hts] at h; simp at h
    | ok out =>
      obtain ⟨s', row, lns⟩ := out
      simp only [hts] at h
      cases hrest : runAux p regions evAt (T + 1) n s' with
      | error msg => simp only [hrest] at h; simp at h
      | ok out2 =>
        obtain ⟨sF2, rows2, lines2⟩ := out2
        simp only [hrest] at h
        obtain ⟨hsF, hrows, -⟩ :
            sF2 = sF ∧ row :: rows2 = rows ∧ lns ++ lines2 = lines := by
          simpa using h
        subst hsF
        subst hrows
        obtain ⟨s1, actions, happ, hout⟩ :=
          tickStep_ok p regions (evAt T) T s _ hts
        have hps := applyEvents_preserves (evAt T) _ _ _ happ
        have h1t : s1.tick = T := by rw [hps.1]
        have hs' : s' = (stepPure p regions T s1 actions).1 :=
          congrArg Prod.fst hout
        have hrowval : row = (stepPure p regions T s1 actions).2.1 :=
          congrArg (fun x => x.2.1) hout
        have hsrfail : (_service_request s1 p regions).2 ≠ "OK" := by
          rw [← (stepPure_row p regions T s1 actions).2.1, ← hrowval]
          intro hcon
          apply hfail
          simp [hcon]
        have hstep := stepPure_fail p regions T s1 actions hsrfail
        have hc' : s'.cached_red_until_tick
            = some (T + p.observer_cache_ttl_ticks) := by
          rw [hs', hstep.1, h1t]
        have hobs0 : row.observer = "RED" := by
          rw [hrowval]; exact hstep.2
        have hOK2 : ∀ i2 (hi2 : i2 < rows2.length),
            rows2[i2].request_result = "OK" := by
          intro i2 hi2
          have hbound : i2 + 1 < (row :: rows2).length := by
            simpa using Nat.succ_lt_succ hi2
          simpa using hOK (i2 + 1) hbound (by omega)
        have IH := runAux_cache p regions evAt n (T + 1) s' sF2 rows2 lines2
          (T + p.observer_cache_ttl_ticks) hc' hrest hOK2
        intro i hi
        cases i with
        | zero =>
          rw [List.getElem_cons_zero, if_pos (Nat.zero_le _)]
          exact hobs0
        | succ i2 =>
          have hi2 : i2 < rows2.length := by
            simpa [Nat.succ_lt_succ_iff] using hi
          have hIH := IH i2 hi2
          rw [List.getElem_cons_succ]
          by_cases hik : i2 + 1 ≤ p.observer_cache_ttl_ticks
          · rw [if_pos hik]
            rw [if_pos (by omega : T + 1 + i2
                ≤ T + p.observer_cache_ttl_ticks)] at hIH
            exact hIH
          · rw [if_neg hik]
            rw [if_neg (by omega : ¬ T + 1 + i2
                ≤ T + p.observer_cache_ttl_ticks)] at hIH
            exact hIH

set_option maxRecDepth 4000 in
/-- Witness for C6's amended statement on the concrete recovery run: the
failure at tick 0 arms a TTL-2 window, the requests at ticks 1–5 succeed,
and the observer is `GREEN` at tick 3 = 0 + TTL + 1. -/
theorem C6_cache_masks_recovery_witness :
    (cacheRows.get ⟨3, by decide⟩).observer = "GREEN" :=
  C6_cache_masks_recovery ⟨1, 2, 99⟩ ["r"] (eventsByTick cacheEvents) 6 0
    initialState cacheFinal cacheRows cacheLines rfl
    (by decide) (by decide) 3 (by decide)

set_option maxRecDepth 4000 in
/-- Counterexample to C6 as stated: in the recovery run the observer
reports `RED` at T = 2 (a cache-carried RED, the request already succeeds),
the requests in (2, 4] succeed, yet the observer is `GREEN` at tick 3, not
`RED` through T + TTL = 4. -/
theorem C6_counterexample :
    (cacheRows.map Row.observer).get? 2 = some "RED" ∧
    (cacheRows.map Row.request_result).get? 3 = some "OK" ∧
    (cacheRows.map Row.request_result).get? 4 = some "OK" ∧
    (cacheRows.map Row.observer).get? 3 = some "GREEN" ∧
    (cacheRows.map Row.observer).get? 3 ≠ some "RED" := by decide

/-- C10: every tick increments `total_requests` by exactly one;
`denied_requests` increments exactly when the reason contains the substring
`PERMISSION_DENIED` — equivalently, exactly when the reason is
`PERMISSION_DENIED(r)` for some configured region `r`; `revoked_requests`
increments exactly when the reason equals `SERVICE_ACCOUNT_REVOKED`; and a
`SERVICE_NOT_STARTED` tick increments neither of the latter two. -/
theorem C10_per_tick_counters (p : Params) (regions : List String)
    (evs : List Event) (t : Nat) (s0 s' : State) (row : Row)
    (lines : List String)
    (h : tickStep p regions evs t s0 = .ok (s', row, lines)) :
    s'.total_requests = s0.total_requests + 1 ∧
    s'.denied_requests =
      (if strContains row.request_result "PERMISSION_DENIED"
        then s0.denied_requests + 1 else s0.denied_requests) ∧
    (strContains row.request_result "PERMISSION_DENIED" = true ↔
      ∃ r, r ∈ regions ∧
        row.request_result = "PERMISSION_DENIED(" ++ r ++ ")") ∧
    (s'.revoked_requests = s0.revoked_requests + 1 ↔
      row.request_result = "SERVICE_ACCOUNT_REVOKED") ∧
    (row.request_result = "SERVICE_NOT_STARTED" →
      s'.denied_requests = s0.denied_requests ∧
      s'.revoked_requests = s0.revoked_requests) := by
  obtain ⟨s1, actions, happ, hout⟩ := tickStep_ok p regions evs t s0 _ h
  have hps := applyEvents_preserves evs _ _ _ happ
  have hs' : s' = (stepPure p regions t s1 actions).1 :=
    congrArg Prod.fst hout
  have hrowval : row = (stepPure p regions t s1 actions).2.1 :=
    congrArg (fun x => x.2.1) hout
  have hreason : row.request_result = (_service_request s1 p regions).2 := by
    rw [hrowval]; exact (stepPure_row p regions t s1 actions).2.1
  have hflds := stepPure_fields p regions t s1 actions
  have hctr := stepPure_counters p regions t s1 actions
  have htotE : s1.total_requests = s0.total_requests := by
    rw [hps.2.2.2.2.2.1]
  have hdenE : s1.denied_requests = s0.denied_requests := by
    rw [hps.2.2.2.2.2.2.1]
  have hrevE : s1.revoked_requests = s0.revoked_requests := by
    rw [hps.2.2.2.2.2.2.2.1]
  refine ⟨?_, ?_, ?_, ?_, ?_⟩
  · rw [hs', hflds.2.2.2, htotE]
  · rw [hs', hctr.1, hreason, hdenE]
  · rw [hreason]
    rcases sr_cases s1 p regions with hc | hc | hc | ⟨r, hr, hc⟩ <;>
      simp only [hc]
    · rw [strContains_sns]
      constructor
      · intro hcon; exact absurd hcon (by decide)
      · rintro ⟨r, -, hpd⟩; exact absurd hpd.symm (pd_ne_sns r)
    · rw [strContains_sar]
      constructor
      · intro hcon; exact absurd hcon (by decide)
      · rintro ⟨r, -, hpd⟩; exact absurd hpd.symm (pd_ne_sar r)
    · rw [strContains_ok]
      constructor
      · intro hcon; exact absurd hcon (by decide)
      · rintro ⟨r, -, hpd⟩; exact absurd hpd.symm (pd_ne_ok r)
    · constructor
      · intro _; exact ⟨r, hr, rfl⟩
      · intro _; exact strContains_pd r
  · rw [hs', hctr.2, hreason, hrevE]
    by_cases hsar : (_service_request s1 p regions).2
        = "SERVICE_ACCOUNT_REVOKED"
    · simp [hsar]
    · rw [if_neg hsar]
      constructor
      · intro hcon
        exact absurd hcon (by omega)
      · intro hcon
        exact absurd hcon hsar
  · intro hsns
    rw [hreason] at hsns
    constructor
    · rw [hs', hctr.1, hsns, strContains_sns]
      simp [hdenE]
    · rw [hs', hctr.2, hsns]
      simp [hrevE]


/-- Witness for C10 on a concrete tick: a `SERVICE_NOT_STARTED` failure
bumps `total_requests` but neither `denied_requests` nor
`revoked_requests`. -/
theorem C10_per_tick_counters_witness :
    c10State.total_requests = initialState.total_requests + 1 ∧
    c10State.denied_requests = initialState.denied_requests ∧
    c10State.revoked_requests = initialState.revoked_requests := by
  have h : tickStep ⟨1, 1, 1⟩ [] [] 0 initialState =
      .ok (c10State, c10Row, c10Lines) := rfl
  have hc := C10_per_tick_counters ⟨1, 1, 1⟩ [] [] 0 initialState _ _ _ h
  exact ⟨hc.1, (hc.2.2.2.2 rfl).1, (hc.2.2.2.2 rfl).2⟩
